import Mathlib

/-
Verification of the `RestaurantScraper` component (restaurants_scrapper.py).

The Python class is embedded shallowly:

* Browser resources (`playwright`, `browser`, `context`, `page`) are Python
  attributes holding either `None`, a live object, or an object whose
  `close()` has already been called.  Crucially, `_cleanup_resources` calls
  `close()` but never resets the attribute to `None`, so the attribute stays
  truthy afterwards; the `Handle` type records this distinction.
* Side effects of releasing resources are logged as a `List CloseAction`
  trace returned alongside the new state.
* Exceptions are modelled with `Except Unit`: `.error ()` stands for an
  exception propagating out of the modelled Python method.
* `BeautifulSoup` queries are modelled by a function from CSS selector
  strings to the outcome of `select_one(...)` / `.get_text(strip=True)`.
* The tenacity decorator `@retry(stop=stop_after_attempt(3),
  wait=wait_exponential(multiplier=1, min=4, max=10))` is embedded as
  `retryLoop`, with tenacity's wait formula
  `max(max(0, min), min(multiplier * exp_base ** attempt_number, max))`.
-/

namespace Scraper

/-- Status of a Python attribute that holds a browser resource.
`noneH`: the attribute is `None`; `held`: a live object; `closed`: an object
whose `close()`/`stop()` was called (the attribute is still set, hence still
truthy in Python). -/
inductive Handle where
  | noneH
  | held
  | closed
deriving DecidableEq

/-- Python truthiness of the attribute: `None` is falsy, any object is truthy,
closed or not. -/
def Handle.truthy : Handle → Bool
  | .noneH => false
  | .held => true
  | .closed => true

/-- One resource-release side effect performed by `_cleanup_resources`. -/
inductive CloseAction where
  | closePage
  | closeContext
  | closeBrowser
  | stopPlaywright
deriving DecidableEq

/-- A restaurant record: the Python dict built by `_get_restaurant_details`,
kept as an association list so that key presence and key order are visible. -/
abbrev RecordT := List (String × String)

/-- The mutable attributes of a `RestaurantScraper` instance. -/
structure ScrState where
  playwright : Handle
  browser : Handle
  context : Handle
  page : Handle
  restaurants : List RecordT
deriving DecidableEq

/-- The state right after `__init__`: every resource attribute is `None` and
the result list is empty. -/
def freshState : ScrState :=
  { playwright := .noneH, browser := .noneH, context := .noneH, page := .noneH,
    restaurants := [] }

/-- A state in which all four resources are live (as after a successful
`initialize_browser`). -/
def allHeldState : ScrState :=
  { playwright := .held, browser := .held, context := .held, page := .held,
    restaurants := [] }

/-- `_cleanup_resources`: for each of page, context, browser, playwright (in
that source order), if the attribute is truthy, call `close()`/`stop()`.
The attribute is not reset to `None` (the source never assigns `None` here),
so it becomes `closed` but stays truthy.  Returns the new state and the list
of release actions performed. -/
def cleanup_resources (s : ScrState) : ScrState × List CloseAction :=
  ({ s with
      page := if s.page.truthy then Handle.closed else s.page,
      context := if s.context.truthy then Handle.closed else s.context,
      browser := if s.browser.truthy then Handle.closed else s.browser,
      playwright := if s.playwright.truthy then Handle.closed else s.playwright },
   (if s.page.truthy then [CloseAction.closePage] else []) ++
   ((if s.context.truthy then [CloseAction.closeContext] else []) ++
    ((if s.browser.truthy then [CloseAction.closeBrowser] else []) ++
     (if s.playwright.truthy then [CloseAction.stopPlaywright] else []))))

/-- Which step of `initialize_browser` raises, if any: `sync_playwright().start()`,
`chromium.launch(...)`, `browser.new_context(...)`, or `context.new_page()`. -/
inductive InitFailure where
  | ok
  | atStart
  | atLaunch
  | atContext
  | atPage
deriving DecidableEq

/-- `initialize_browser`: acquires playwright, browser, context, page in that
order; on any exception, runs `_cleanup_resources` and re-raises.  A step that
raises leaves its own attribute unassigned (still `None`). -/
def initialize_browser (fail : InitFailure) (s : ScrState) :
    ScrState × List CloseAction × Except Unit Unit :=
  match fail with
  | .atStart =>
      ((cleanup_resources s).1, (cleanup_resources s).2, .error ())
  | .atLaunch =>
      ((cleanup_resources { s with playwright := .held }).1,
       (cleanup_resources { s with playwright := .held }).2, .error ())
  | .atContext =>
      ((cleanup_resources { s with playwright := .held, browser := .held }).1,
       (cleanup_resources { s with playwright := .held, browser := .held }).2, .error ())
  | .atPage =>
      ((cleanup_resources { s with playwright := .held, browser := .held, context := .held }).1,
       (cleanup_resources { s with playwright := .held, browser := .held, context := .held }).2,
       .error ())
  | .ok =>
      ({ s with playwright := .held, browser := .held, context := .held, page := .held },
       [], .ok ())

/-- Outcome of evaluating `soup.select_one(selector)` and, when an element is
found, `.get_text(strip=True)` on it: an element with the given (stripped)
text, no matching element, or an exception during selection/extraction. -/
inductive SelectResult where
  | found (text : String)
  | notFound
  | raises
deriving DecidableEq

/-- A parsed result block (`BeautifulSoup` document), abstracted as the
response it gives to each CSS selector query. -/
abbrev Soup := String → SelectResult

/-- `_safe_extract`: `soup.select_one(selector).get_text(strip=True) if
soup.select_one(selector) else default`, with `except Exception: return "N/A"`. -/
def safe_extract (soup : Soup) (selector : String) (dflt : String) : String :=
  match soup selector with
  | .found t => t
  | .notFound => dflt
  | .raises => "N/A"

/-- `_get_restaurant_details` applied to an already-parsed block: probes the
four selectors independently and builds the four-key dict. -/
def get_restaurant_details (soup : Soup) : RecordT :=
  let name := safe_extract soup "h3" "N/A"
  let rating := safe_extract soup "span[aria-label]" "N/A"
  let address := safe_extract soup "[data-dtype=\x27d3adr\x27]" "N/A"
  let phone := safe_extract soup "[data-dtype=\x27d3ph\x27]" "N/A"
  [("Name", name), ("Rating", rating), ("Address", address), ("Phone", phone)]

/-- The keys of a record dict, in insertion order. -/
def recordKeys (r : RecordT) : List String := r.map Prod.fst

/-- The four record keys, in the order the source dict literal inserts them. -/
def fourKeys : List String := ["Name", "Rating", "Address", "Phone"]

/-- The four CSS selectors probed by `_get_restaurant_details`, in source
order (name, rating, address, phone). -/
def fieldSelectors : List String :=
  ["h3", "span[aria-label]", "[data-dtype=\x27d3adr\x27]", "[data-dtype=\x27d3ph\x27]"]

/-- Selector of the i-th field. -/
def selectorAt (i : Fin 4) : String := fieldSelectors.get i

/-- Dict key of the i-th field. -/
def keyAt (i : Fin 4) : String := fourKeys.get i

/-- Value stored under key `k` in a record (empty string when absent, as a
pandas column read would give). -/
def lookupField (r : RecordT) (k : String) : String :=
  match r.lookup k with
  | some v => v
  | none => ""

/-- One result block (`res.nth(r)`) as seen by the extraction loop: either
`inner_html()` + parsing succeed and give a document, or some exception is
raised while handling this block. -/
inductive Block where
  | ok (soup : Soup)
  | fails

/-- Environment of one `get_restaurants` attempt: whether `page.goto` raises,
whether `wait_for_selector("div.g")` times out, and the result blocks the
page contains. -/
structure PageEnv where
  gotoFails : Bool
  selectorTimesOut : Bool
  blocks : List Block

/-- The `for r in range(res.count())` loop: each block is extracted inside a
`try`; a failing block is logged and skipped (`continue`); a successful
extraction is appended when the dict is truthy (non-empty). -/
def scrapeBlocks (blocks : List Block) (acc : List RecordT) : List RecordT :=
  match blocks with
  | [] => acc
  | .ok soup :: rest =>
      let details := get_restaurant_details soup
      scrapeBlocks rest (if details = [] then acc else acc ++ [details])
  | .fails :: rest => scrapeBlocks rest acc

/-- What one block contributes to the result list. -/
def extractBlock : Block → Option RecordT
  | .ok soup => some (get_restaurant_details soup)
  | .fails => none

/-- One un-retried run of the `get_restaurants` body: navigation failure is
caught by the outer handler, which runs `_cleanup_resources` and re-raises;
a selector-wait timeout is caught by the inner handler, which returns;
otherwise the extraction loop runs and the method returns normally. -/
def get_restaurants_once (env : PageEnv) (s : ScrState) :
    ScrState × List CloseAction × Except Unit Unit :=
  if env.gotoFails then
    ((cleanup_resources s).1, (cleanup_resources s).2, .error ())
  else if env.selectorTimesOut then
    (s, [], .ok ())
  else
    ({ s with restaurants := scrapeBlocks env.blocks s.restaurants }, [], .ok ())

/-- tenacity `wait_exponential(multiplier, min, max)` after the failed attempt
numbered `attemptNumber` (1-based):
`max(max(0, min), min(multiplier * 2 ** attempt_number, max))`. -/
def wait_exponential (multiplier mn mx attemptNumber : Nat) : Nat :=
  Nat.max (Nat.max 0 mn) (Nat.min (multiplier * 2 ^ attemptNumber) mx)

/-- Result of the retry-wrapped `get_restaurants` call: final state, release
trace, backoff delays slept, number of attempts executed, and whether an
error propagated to the caller. -/
structure RetryResult where
  state : ScrState
  trace : List CloseAction
  delays : List Nat
  attempts : Nat
  outcome : Except Unit Unit

/-- tenacity retry loop with `stop_after_attempt` bound: run an attempt; on
success return; on failure, if attempts remain, sleep the exponential-backoff
delay and retry, else propagate the error. -/
def retryLoop (envs : Nat → PageEnv) (attemptNumber remaining : Nat) (s : ScrState) :
    RetryResult :=
  match remaining with
  | 0 => ⟨s, [], [], 0, .error ()⟩
  | Nat.succ n =>
      match (get_restaurants_once (envs attemptNumber) s).2.2 with
      | .ok _ =>
          ⟨(get_restaurants_once (envs attemptNumber) s).1,
           (get_restaurants_once (envs attemptNumber) s).2.1, [], 1, .ok ()⟩
      | .error _ =>
          if n = 0 then
            ⟨(get_restaurants_once (envs attemptNumber) s).1,
             (get_restaurants_once (envs attemptNumber) s).2.1, [], 1, .error ()⟩
          else
            let rest := retryLoop envs (attemptNumber + 1) n
              ((get_restaurants_once (envs attemptNumber) s).1)
            ⟨rest.state, (get_restaurants_once (envs attemptNumber) s).2.1 ++ rest.trace,
             wait_exponential 1 4 10 attemptNumber :: rest.delays,
             1 + rest.attempts, rest.outcome⟩

/-- `get_restaurants` as decorated: `@retry(stop=stop_after_attempt(3),
wait=wait_exponential(multiplier=1, min=4, max=10))`.  `envs i` is the page
behaviour seen by attempt `i` (attempts are numbered from 1). -/
def get_restaurants (envs : Nat → PageEnv) (s : ScrState) : RetryResult :=
  retryLoop envs 1 3 s

/-- `with RestaurantScraper(...) as scraper: scraper.get_restaurants()`:
`__enter__` runs `initialize_browser` (if it raises, `__exit__` is not
called); the body runs the retried `get_restaurants`; `__exit__` runs
`_cleanup_resources` unconditionally. -/
def withSession (fail : InitFailure) (envs : Nat → PageEnv) :
    ScrState × List CloseAction × Except Unit Unit :=
  let s1 := (initialize_browser fail freshState).1
  let tr1 := (initialize_browser fail freshState).2.1
  match (initialize_browser fail freshState).2.2 with
  | .error e => (s1, tr1, .error e)
  | .ok _ =>
      let res := get_restaurants envs s1
      ((cleanup_resources res.state).1,
       tr1 ++ res.trace ++ (cleanup_resources res.state).2, res.outcome)

/-- pandas `DataFrame(list_of_dicts)` column inference: keys in order of first
appearance. -/
def addColumns (acc : List String) (ks : List String) : List String :=
  ks.foldl (fun a k => if a.contains k then a else a ++ [k]) acc

/-- Columns of the DataFrame built from the record list. -/
def columnsOf (records : List RecordT) : List String :=
  records.foldl (fun a r => addColumns a (recordKeys r)) []

/-- One CSV data row: the record's values in column order. -/
def csvRow (cols : List String) (r : RecordT) : String :=
  String.intercalate "," (cols.map (lookupField r))

/-- `df.to_csv(..., index=False)`: a header line of the column names followed
by one data row per record, in order. -/
def toCsvLines (records : List RecordT) : List String :=
  String.intercalate "," (columnsOf records) :: records.map (csvRow (columnsOf records))

/-- `save_to_csv`: if the result list is falsy (empty), log a warning and
return without writing; else write the CSV, overwriting the file.  `file` is
the output file's content before the call; the result is its content after. -/
def save_to_csv (restaurants : List RecordT) (file : Option (List String)) :
    Option (List String) :=
  if restaurants = [] then file else some (toCsvLines restaurants)

/-- One public operation on a scraper instance, for stating invariants over
arbitrary operation sequences. -/
inductive Op where
  | init (fail : InitFailure)
  | scrape (envs : Nat → PageEnv)
  | save
  | teardown

/-- Effect of one operation on the instance state (`save_to_csv` reads but
does not modify the instance). -/
def runOp (s : ScrState) (op : Op) : ScrState :=
  match op with
  | .init f => (initialize_browser f s).1
  | .scrape envs => (get_restaurants envs s).state
  | .save => s
  | .teardown => (cleanup_resources s).1

/-- Run a sequence of operations from a given state. -/
def runOps (ops : List Op) (s : ScrState) : ScrState :=
  ops.foldl runOp s

instance : DecidableEq (Except Unit Unit) := fun a b =>
  match a, b with
  | .ok (), .ok () => isTrue rfl
  | .error (), .error () => isTrue rfl
  | .ok (), .error () => isFalse (fun h => Except.noConfusion h)
  | .error (), .ok () => isFalse (fun h => Except.noConfusion h)

/-- The guard `_cleanup_resources` applies to each close call: the truthiness
of the attribute the call reads. -/
def closeGuard (s : ScrState) : CloseAction → Bool
  | .closePage => s.page.truthy
  | .closeContext => s.context.truthy
  | .closeBrowser => s.browser.truthy
  | .stopPlaywright => s.playwright.truthy

/-- The full release sequence, in source order. -/
def fullCloseSeq : List CloseAction :=
  [CloseAction.closePage, CloseAction.closeContext, CloseAction.closeBrowser,
   CloseAction.stopPlaywright]

/-- A parsed block in which no selector matches anything. -/
def naSoup : Soup := fun _ => SelectResult.notFound

/-- The record extracted from a block with no matching selectors. -/
def naRecord : RecordT :=
  [("Name", "N/A"), ("Rating", "N/A"), ("Address", "N/A"), ("Phone", "N/A")]

/-- A page whose navigation succeeds, whose result container attaches, and
which carries three blocks of which the middle one fails to parse. -/
def demoEnv : PageEnv :=
  { gotoFails := false, selectorTimesOut := false,
    blocks := [Block.ok naSoup, Block.fails, Block.ok naSoup] }

/-- A page behaviour for which `page.goto` raises on every attempt. -/
def failEnvs : Nat → PageEnv :=
  fun _ => { gotoFails := true, selectorTimesOut := false, blocks := [] }

/-- A page behaviour that succeeds on every attempt. -/
def okEnvs : Nat → PageEnv := fun _ => demoEnv

/-- A page whose result-container wait times out (navigation succeeded). -/
def timeoutEnv : PageEnv :=
  { gotoFails := false, selectorTimesOut := true, blocks := [] }

/-- A session run: successful initialization, one successful scrape, a save,
and the context-manager teardown. -/
def demoOps : List Op :=
  [Op.init InitFailure.ok, Op.scrape (fun _ => demoEnv), Op.save, Op.teardown]

/- ------------------------------------------------------------------ -/
/- Helper lemmas shared by the claim theorems.                         -/
/- ------------------------------------------------------------------ -/

theorem safe_extract_congr (soup soup2 : Soup) (sel d : String)
    (h : soup2 sel = soup sel) :
    safe_extract soup2 sel d = safe_extract soup sel d := by
  simp [safe_extract, h]

theorem lookupField_details (soup : Soup) (i : Fin 4) :
    lookupField (get_restaurant_details soup) (keyAt i)
      = safe_extract soup (selectorAt i) "N/A" := by
  fin_cases i <;> rfl

theorem details_ne_nil (soup : Soup) : get_restaurant_details soup ≠ [] := by
  simp [get_restaurant_details]

theorem details_keys (soup : Soup) :
    recordKeys (get_restaurant_details soup) = fourKeys := rfl

theorem scrapeBlocks_eq (blocks : List Block) (acc : List RecordT) :
    scrapeBlocks blocks acc = acc ++ blocks.filterMap extractBlock := by
  induction blocks generalizing acc with
  | nil => simp [scrapeBlocks]
  | cons b rest ih =>
      cases b with
      | ok soup =>
          rw [scrapeBlocks, if_neg (details_ne_nil soup), ih]
          simp [extractBlock]
      | fails => simp [scrapeBlocks, extractBlock, ih]

theorem extractBlock_keys (b : Block) (r : RecordT) (h : extractBlock b = some r) :
    recordKeys r = fourKeys := by
  cases b with
  | ok soup =>
      simp [extractBlock] at h
      exact h ▸ details_keys soup
  | fails => simp [extractBlock] at h

theorem cleanup_restaurants (s : ScrState) :
    (cleanup_resources s).1.restaurants = s.restaurants := by
  simp [cleanup_resources]

theorem cleanup_trace_eq_filter (s : ScrState) :
    (cleanup_resources s).2 = fullCloseSeq.filter (closeGuard s) := by
  cases hp : s.page.truthy <;> cases hc : s.context.truthy <;>
    cases hb : s.browser.truthy <;> cases hw : s.playwright.truthy <;>
      simp [cleanup_resources, closeGuard, fullCloseSeq, List.filter, hp, hc, hb, hw]

theorem once_restaurants (env : PageEnv) (s : ScrState) :
    (get_restaurants_once env s).1.restaurants
      = if env.gotoFails = true then s.restaurants
        else if env.selectorTimesOut = true then s.restaurants
        else s.restaurants ++ env.blocks.filterMap extractBlock := by
  by_cases hg : env.gotoFails = true <;> by_cases ht : env.selectorTimesOut = true <;>
    simp [get_restaurants_once, hg, ht, cleanup_restaurants, scrapeBlocks_eq]

/-- The keys invariant: every accumulated record has the four keys. -/
def keysInv (s : ScrState) : Prop :=
  ∀ r ∈ s.restaurants, recordKeys r = fourKeys

theorem once_preserves_keys (env : PageEnv) (s : ScrState) (h : keysInv s) :
    keysInv (get_restaurants_once env s).1 := by
  intro r hr
  rw [once_restaurants] at hr
  split at hr
  · exact h r hr
  · split at hr
    · exact h r hr
    · rcases List.mem_append.mp hr with hr | hr
      · exact h r hr
      · rcases List.mem_filterMap.mp hr with ⟨b, _, hb⟩
        exact extractBlock_keys b r hb

theorem retryLoop_preserves_keys (envs : Nat → PageEnv) (a r : Nat) (s : ScrState)
    (h : keysInv s) : keysInv (retryLoop envs a r s).state := by
  induction r generalizing a s with
  | zero => simpa [retryLoop] using h
  | succ n ih =>
      have hstep := once_preserves_keys (envs a) s h
      rcases hout : (get_restaurants_once (envs a) s).2.2 with e | v
      · by_cases hn : n = 0
        · simpa [retryLoop, hout, hn] using hstep
        · simpa [retryLoop, hout, hn] using ih (a + 1) _ hstep
      · simpa [retryLoop, hout] using hstep

theorem runOp_preserves_keys (s : ScrState) (op : Op) (h : keysInv s) :
    keysInv (runOp s op) := by
  cases op with
  | init f =>
      cases f <;>
        simpa [runOp, initialize_browser, keysInv, cleanup_restaurants] using h
  | scrape envs => exact retryLoop_preserves_keys envs 1 3 s h
  | save => exact h
  | teardown => simpa [runOp, keysInv, cleanup_restaurants] using h

theorem runOps_preserves_keys (ops : List Op) (s : ScrState) (h : keysInv s) :
    keysInv (runOps ops s) := by
  induction ops generalizing s with
  | nil => simpa [runOps] using h
  | cons op rest ih =>
      simpa [runOps] using ih (runOp s op) (runOp_preserves_keys s op h)

theorem lookup_isSome_of_mem_keys (r : RecordT) (k : String)
    (h : k ∈ recordKeys r) : (r.lookup k).isSome := by
  induction r with
  | nil => simp [recordKeys] at h
  | cons p tl ih =>
      obtain ⟨a, b⟩ := p
      simp only [recordKeys, List.map_cons, List.mem_cons] at h
      by_cases hk : k = a
      · subst hk
        simp [List.lookup]
      · have hb : (k == a) = false := by simp [hk]
        simp only [List.lookup, hb]
        rcases h with h | h
        · exact absurd h hk
        · exact ih (by simpa [recordKeys] using h)

theorem once_outcome (env : PageEnv) (s : ScrState) :
    (get_restaurants_once env s).2.2
      = if env.gotoFails then Except.error () else Except.ok () := by
  by_cases hg : env.gotoFails <;> by_cases ht : env.selectorTimesOut <;>
    simp [get_restaurants_once, hg, ht]

theorem wait_exponential_bounds (k : Nat) :
    4 ≤ wait_exponential 1 4 10 k ∧ wait_exponential 1 4 10 k ≤ 10 := by
  unfold wait_exponential
  constructor
  · exact le_max_of_le_left (by simp)
  · exact max_le (by simp) (Nat.min_le_right _ _)

theorem retryLoop_attempts_le (envs : Nat → PageEnv) (a r : Nat) (s : ScrState) :
    (retryLoop envs a r s).attempts ≤ r := by
  induction r generalizing a s with
  | zero => simp [retryLoop]
  | succ n ih =>
      rcases hout : (get_restaurants_once (envs a) s).2.2 with e | v
      · by_cases hn : n = 0
        · simp [retryLoop, hout, hn]
        · have := ih (a + 1) ((get_restaurants_once (envs a) s).1)
          simp [retryLoop, hout, hn]
          omega
      · simp [retryLoop, hout]

theorem retryLoop_delays_shape (envs : Nat → PageEnv) (a r : Nat) (s : ScrState) :
    ∀ d ∈ (retryLoop envs a r s).delays, ∃ k, d = wait_exponential 1 4 10 k := by
  induction r generalizing a s with
  | zero => simp [retryLoop]
  | succ n ih =>
      rcases hout : (get_restaurants_once (envs a) s).2.2 with e | v
      · by_cases hn : n = 0
        · simp [retryLoop, hout, hn]
        · simp only [retryLoop, hout]
          rw [if_neg hn]
          intro d hd
          rcases List.mem_cons.mp hd with h | h
          · exact ⟨a, h⟩
          · exact ih (a + 1) _ d h
      · simp [retryLoop, hout]

theorem addColumns_fourKeys_fourKeys : addColumns fourKeys fourKeys = fourKeys := by
  decide

theorem foldl_addColumns_fourKeys (rest : List RecordT)
    (hk : ∀ r ∈ rest, recordKeys r = fourKeys) :
    rest.foldl (fun a r => addColumns a (recordKeys r)) fourKeys = fourKeys := by
  induction rest with
  | nil => rfl
  | cons r tl ih =>
      have h1 : recordKeys r = fourKeys := hk r (by simp)
      simp only [List.foldl_cons, h1, addColumns_fourKeys_fourKeys]
      exact ih fun x hx => hk x (by simp [hx])

theorem columnsOf_eq_fourKeys (records : List RecordT) (hne : records ≠ [])
    (hk : ∀ r ∈ records, recordKeys r = fourKeys) :
    columnsOf records = fourKeys := by
  cases records with
  | nil => exact absurd rfl hne
  | cons r rest =>
      have h1 : recordKeys r = fourKeys := hk r (by simp)
      simp only [columnsOf, List.foldl_cons, h1]
      have h2 : addColumns [] fourKeys = fourKeys := by decide
      rw [h2]
      exact foldl_addColumns_fourKeys rest fun x hx => hk x (by simp [hx])

theorem retryLoop_all_fail (envs : Nat → PageEnv) :
    ∀ (r a : Nat) (s : ScrState), 1 ≤ r →
      (∀ k, a ≤ k → k < a + r → (envs k).gotoFails = true) →
      (retryLoop envs a r s).attempts = r ∧
      (retryLoop envs a r s).delays
        = (List.range' a (r - 1)).map (wait_exponential 1 4 10) ∧
      (retryLoop envs a r s).outcome = Except.error () := by
  intro r
  induction r with
  | zero => intro a s h; omega
  | succ n ih =>
      intro a s _ hf
      have hout : (get_restaurants_once (envs a) s).2.2 = Except.error () := by
        simp [once_outcome, hf a (Nat.le_refl a) (by omega)]
      by_cases hn : n = 0
      · simp [retryLoop, hout, hn]
      · obtain ⟨ha, hd, ho⟩ := ih (a + 1) ((get_restaurants_once (envs a) s).1)
          (by omega) (fun k hk1 hk2 => hf k (by omega) (by omega))
        simp only [retryLoop, hout]
        rw [if_neg hn]
        refine ⟨by simp [ha]; omega, ?_, ho⟩
        simp only [hd]
        rw [show n + 1 - 1 = (n - 1) + 1 by omega, List.range'_succ]
        simp [Nat.sub_add_cancel]

theorem cleanup_sp (s : ScrState) (h : s.playwright ≠ Handle.noneH) :
    (cleanup_resources s).2.count CloseAction.stopPlaywright = 1 ∧
    (cleanup_resources s).1.playwright = Handle.closed := by
  have ht : s.playwright.truthy = true := by
    cases hp : s.playwright with
    | noneH => exact absurd hp h
    | held => rfl
    | closed => rfl
  constructor
  · cases hpg : s.page.truthy <;> cases hcx : s.context.truthy <;>
      cases hbr : s.browser.truthy <;>
        simp [cleanup_resources, ht, hpg, hcx, hbr, List.count_cons, List.count_nil]
  · simp [cleanup_resources, ht]

theorem retryLoop_first_ok (envs : Nat → PageEnv) (a r : Nat) (s : ScrState)
    (h : (get_restaurants_once (envs a) s).2.2 = Except.ok ()) :
    retryLoop envs a (r + 1) s
      = ⟨(get_restaurants_once (envs a) s).1,
         (get_restaurants_once (envs a) s).2.1, [], 1, Except.ok ()⟩ := by
  simp [retryLoop, h]

theorem retryLoop_step_err (envs : Nat → PageEnv) (a n : Nat) (s : ScrState)
    (h : (get_restaurants_once (envs a) s).2.2 = Except.error ()) (hn : 2 ≤ n) :
    retryLoop envs a n s
      = ⟨(retryLoop envs (a + 1) (n - 1) (get_restaurants_once (envs a) s).1).state,
         (get_restaurants_once (envs a) s).2.1
           ++ (retryLoop envs (a + 1) (n - 1) (get_restaurants_once (envs a) s).1).trace,
         wait_exponential 1 4 10 a
           :: (retryLoop envs (a + 1) (n - 1) (get_restaurants_once (envs a) s).1).delays,
         1 + (retryLoop envs (a + 1) (n - 1) (get_restaurants_once (envs a) s).1).attempts,
         (retryLoop envs (a + 1) (n - 1) (get_restaurants_once (envs a) s).1).outcome⟩ := by
  obtain ⟨m, rfl⟩ : ∃ m, n = m + 1 := ⟨n - 1, by omega⟩
  simp only [retryLoop, h]
  rw [if_neg (by omega : ¬ m = 0)]
  simp

theorem retryLoop_last_err (envs : Nat → PageEnv) (a n : Nat) (s : ScrState)
    (h : (get_restaurants_once (envs a) s).2.2 = Except.error ()) (hn : n = 1) :
    retryLoop envs a n s
      = ⟨(get_restaurants_once (envs a) s).1,
         (get_restaurants_once (envs a) s).2.1, [], 1, Except.error ()⟩ := by
  subst hn
  show retryLoop envs a (Nat.succ 0) s = _
  simp [retryLoop, h]

theorem once_no_cleanup (env : PageEnv) (s : ScrState) (hg : env.gotoFails = false) :
    (get_restaurants_once env s).2.1 = [] ∧
    (get_restaurants_once env s).1.playwright = s.playwright ∧
    (get_restaurants_once env s).1.browser = s.browser ∧
    (get_restaurants_once env s).1.context = s.context ∧
    (get_restaurants_once env s).1.page = s.page := by
  by_cases ht : env.selectorTimesOut = true <;> simp [get_restaurants_once, hg, ht]

theorem once_goto_fail (env : PageEnv) (s : ScrState) (hg : env.gotoFails = true) :
    get_restaurants_once env s
      = ((cleanup_resources s).1, (cleanup_resources s).2, Except.error ()) := by
  simp [get_restaurants_once, hg]

theorem retryLoop_all_fail_sp_count (envs : Nat → PageEnv) :
    ∀ (r a : Nat) (s : ScrState), 1 ≤ r → s.playwright ≠ Handle.noneH →
      (∀ k, a ≤ k → k < a + r → (envs k).gotoFails = true) →
      (retryLoop envs a r s).trace.count CloseAction.stopPlaywright = r ∧
      (retryLoop envs a r s).state.playwright ≠ Handle.noneH := by
  intro r
  induction r with
  | zero => intro a s h; omega
  | succ n ih =>
      intro a s _ hpw hf
      have hga : (envs a).gotoFails = true := hf a (Nat.le_refl a) (by omega)
      have hout : (get_restaurants_once (envs a) s).2.2 = Except.error () := by
        simp [once_outcome, hga]
      have htr : (get_restaurants_once (envs a) s).2.1 = (cleanup_resources s).2 := by
        rw [once_goto_fail (envs a) s hga]
      have hst : (get_restaurants_once (envs a) s).1 = (cleanup_resources s).1 := by
        rw [once_goto_fail (envs a) s hga]
      have hcs := cleanup_sp s hpw
      have hclosed : (get_restaurants_once (envs a) s).1.playwright ≠ Handle.noneH := by
        rw [hst, hcs.2]
        simp
      by_cases hn : n = 0
      · subst hn
        rw [retryLoop_last_err envs a 1 s hout rfl]
        dsimp
        rw [htr]
        exact ⟨hcs.1, by rw [hst, hcs.2]; simp⟩
      · obtain ⟨ihc, ihp⟩ := ih (a + 1) ((get_restaurants_once (envs a) s).1)
          (by omega) hclosed (fun k hk1 hk2 => hf k (by omega) (by omega))
        rw [retryLoop_step_err envs a (n + 1) s hout (by omega)]
        dsimp
        refine ⟨?_, ihp⟩
        rw [List.count_append, htr, hcs.1, ihc]
        omega

/- ------------------------------------------------------------------ -/
/- Claim theorems.                                                     -/
/- ------------------------------------------------------------------ -/

/-- C2: after any sequence of operations on a freshly constructed session,
every record in the result sequence has exactly the four keys Name, Rating,
Address, Phone, each key present (absent data is a sentinel value, never a
missing key); and `_get_restaurant_details` always returns a record with all
four keys, never a partial one. -/
theorem records_fully_populated (ops : List Op) (r : RecordT)
    (h : r ∈ (runOps ops freshState).restaurants) :
    recordKeys r = fourKeys ∧ (∀ k ∈ fourKeys, (r.lookup k).isSome) ∧
    ∀ soup : Soup, recordKeys (get_restaurant_details soup) = fourKeys := by
  have hkeys : recordKeys r = fourKeys := by
    have hinv : keysInv (runOps ops freshState) :=
      runOps_preserves_keys ops freshState (by intro x hx; simp [freshState] at hx)
    exact hinv r h
  refine ⟨hkeys, ?_, fun soup => details_keys soup⟩
  intro k hk
  exact lookup_isSome_of_mem_keys r k (by rw [hkeys]; exact hk)

/-- Witness for C2: a concrete session run (init, one scrape of a three-block
page, save, teardown) whose result sequence contains the all-sentinel record. -/
theorem records_fully_populated_witness :
    naRecord ∈ (runOps demoOps freshState).restaurants ∧
    (recordKeys naRecord = fourKeys ∧ (∀ k ∈ fourKeys, (naRecord.lookup k).isSome) ∧
     ∀ soup : Soup, recordKeys (get_restaurant_details soup) = fourKeys) := by
  have h : naRecord ∈ (runOps demoOps freshState).restaurants := by decide
  exact ⟨h, records_fully_populated demoOps naRecord h⟩

/-- C3: the four fields are extracted independently: if the block's markup
has no element matching field i's selector, or extracting field i raises,
then field i of the record is "N/A"; and every field's value depends only on
the markup's response to that field's own selector, so the other three
fields are unaffected. -/
theorem field_failure_isolated (soup : Soup) (i : Fin 4)
    (h : soup (selectorAt i) = SelectResult.notFound ∨
         soup (selectorAt i) = SelectResult.raises) :
    lookupField (get_restaurant_details soup) (keyAt i) = "N/A" ∧
    ∀ (soup2 : Soup) (j : Fin 4), j ≠ i →
      soup2 (selectorAt j) = soup (selectorAt j) →
      lookupField (get_restaurant_details soup2) (keyAt j)
        = lookupField (get_restaurant_details soup) (keyAt j) := by
  constructor
  · rw [lookupField_details]
    rcases h with h | h <;> simp [safe_extract, h]
  · intro soup2 j _ hagree
    rw [lookupField_details, lookupField_details]
    exact safe_extract_congr soup soup2 (selectorAt j) "N/A" hagree

/-- Witness for C3: a block matching no selector; the Name field degrades to
the sentinel and the other fields stay functions of their own selectors. -/
theorem field_failure_isolated_witness :
    (naSoup (selectorAt 0) = SelectResult.notFound ∨
       naSoup (selectorAt 0) = SelectResult.raises) ∧
    (lookupField (get_restaurant_details naSoup) (keyAt 0) = "N/A" ∧
     ∀ (soup2 : Soup) (j : Fin 4), j ≠ (0 : Fin 4) →
       soup2 (selectorAt j) = naSoup (selectorAt j) →
       lookupField (get_restaurant_details soup2) (keyAt j)
         = lookupField (get_restaurant_details naSoup) (keyAt j)) :=
  ⟨Or.inl rfl, field_failure_isolated naSoup 0 (Or.inl rfl)⟩

/-- C4: if navigation succeeds but the bounded wait for the first result
block times out, the `get_restaurants` body returns normally, performs no
extraction, and leaves the whole state (result sequence included) unchanged;
a navigation failure, by contrast, makes the body raise. -/
theorem selector_timeout_degrades (env : PageEnv) (s : ScrState)
    (hg : env.gotoFails = false) (ht : env.selectorTimesOut = true) :
    get_restaurants_once env s = (s, [], Except.ok ()) ∧
    ∀ (env2 : PageEnv) (s2 : ScrState), env2.gotoFails = true →
      (get_restaurants_once env2 s2).2.2 = Except.error () := by
  refine ⟨by simp [get_restaurants_once, hg, ht], ?_⟩
  intro env2 s2 h2
  simp [get_restaurants_once, h2]

/-- Witness for C4: the timeout page against the fresh (empty) session. -/
theorem selector_timeout_degrades_witness :
    timeoutEnv.gotoFails = false ∧ timeoutEnv.selectorTimesOut = true ∧
    (get_restaurants_once timeoutEnv freshState = (freshState, [], Except.ok ()) ∧
     ∀ (env2 : PageEnv) (s2 : ScrState), env2.gotoFails = true →
       (get_restaurants_once env2 s2).2.2 = Except.error ()) :=
  ⟨rfl, rfl, selector_timeout_degrades timeoutEnv freshState rfl rfl⟩

/-- C5: in the extraction loop, a failing block is caught and skipped: the
result sequence gains exactly the records of the successfully extracted
blocks, in order (none skipped, none duplicated), and the attempt completes
normally; in particular the three-block page with one failing block yields
exactly two records. -/
theorem block_failures_isolated (blocks : List Block) (s : ScrState) :
    (get_restaurants_once
        { gotoFails := false, selectorTimesOut := false, blocks := blocks } s).1.restaurants
      = s.restaurants ++ blocks.filterMap extractBlock ∧
    (get_restaurants_once
        { gotoFails := false, selectorTimesOut := false, blocks := blocks } s).2.2
      = Except.ok () ∧
    (get_restaurants_once demoEnv freshState).1.restaurants
      = [get_restaurant_details naSoup, get_restaurant_details naSoup] := by
  refine ⟨?_, by simp [once_outcome], ?_⟩
  · rw [once_restaurants]
    simp
  · rw [once_restaurants]
    simp [demoEnv, extractBlock, freshState]

/-- C10: `_safe_extract` returns the supplied default only on the
missing-element path; an exception during selection or text extraction
returns the literal "N/A" regardless of the default, so for any default
other than "N/A" the missing-element path and the exception path yield
different results. -/
theorem safe_extract_default_vs_exception (soup : Soup) (sel d : String)
    (hd : d ≠ "N/A") :
    (soup sel = SelectResult.notFound → safe_extract soup sel d = d) ∧
    (soup sel = SelectResult.raises → safe_extract soup sel d = "N/A") ∧
    (∀ t, soup sel = SelectResult.found t → safe_extract soup sel d = t) ∧
    (soup sel = SelectResult.notFound → safe_extract soup sel d ≠ "N/A") := by
  refine ⟨fun h => by simp [safe_extract, h], fun h => by simp [safe_extract, h],
    fun t h => by simp [safe_extract, h], fun h => by simp [safe_extract, h, hd]⟩

/-- C6: the retried `get_restaurants` executes at most 3 attempts; every
backoff delay is tenacity's exponential wait clamped to the interval
[4s, 10s]; and when all three attempts fail, an error propagates to the
caller, after exactly 3 attempts with delays of
`wait_exponential` at attempt numbers 1 and 2 (both 4 seconds). -/
theorem retry_policy (envs : Nat → PageEnv) (s : ScrState) :
    (get_restaurants envs s).attempts ≤ 3 ∧
    (∀ d ∈ (get_restaurants envs s).delays, 4 ≤ d ∧ d ≤ 10) ∧
    ((envs 1).gotoFails = true → (envs 2).gotoFails = true → (envs 3).gotoFails = true →
      (get_restaurants envs s).attempts = 3 ∧
      (get_restaurants envs s).delays
        = [wait_exponential 1 4 10 1, wait_exponential 1 4 10 2] ∧
      (get_restaurants envs s).delays = [4, 4] ∧
      (get_restaurants envs s).outcome = Except.error ()) := by
  refine ⟨retryLoop_attempts_le envs 1 3 s, ?_, ?_⟩
  · intro d hd
    rcases retryLoop_delays_shape envs 1 3 s d hd with ⟨k, hk⟩
    exact hk ▸ wait_exponential_bounds k
  · intro h1 h2 h3
    have hf : ∀ k, 1 ≤ k → k < 1 + 3 → (envs k).gotoFails = true := by
      intro k hk1 hk2
      interval_cases k <;> assumption
    obtain ⟨ha, hd, ho⟩ := retryLoop_all_fail envs 3 1 s (by omega) hf
    exact ⟨ha, hd.trans rfl, hd.trans rfl, ho⟩

/-- Witness for C6: a page whose navigation fails on every attempt. -/
theorem retry_policy_witness :
    (failEnvs 1).gotoFails = true ∧ (failEnvs 2).gotoFails = true ∧
    (failEnvs 3).gotoFails = true ∧
    ((get_restaurants failEnvs freshState).attempts = 3 ∧
     (get_restaurants failEnvs freshState).delays
       = [wait_exponential 1 4 10 1, wait_exponential 1 4 10 2] ∧
     (get_restaurants failEnvs freshState).delays = [4, 4] ∧
     (get_restaurants failEnvs freshState).outcome = Except.error ()) :=
  ⟨rfl, rfl, rfl, (retry_policy failEnvs freshState).2.2 rfl rfl rfl⟩

/-- C7: persisting a non-empty sequence of N records writes the header line
`Name,Rating,Address,Phone` followed by one data row per record in order
(N + 1 lines total, fixed column order), with the written content
independent of any previous file content (overwrite); persisting an empty
sequence leaves the file untouched and raises nothing. -/
theorem persist_header_and_rows (records : List RecordT) (file : Option (List String))
    (hne : records ≠ []) (hk : ∀ r ∈ records, recordKeys r = fourKeys) :
    save_to_csv records file = some (toCsvLines records) ∧
    toCsvLines records
      = "Name,Rating,Address,Phone" :: records.map (csvRow fourKeys) ∧
    (toCsvLines records).length = records.length + 1 ∧
    (∀ file2 : Option (List String), save_to_csv records file2 = save_to_csv records file) ∧
    save_to_csv [] file = file := by
  have hcols := columnsOf_eq_fourKeys records hne hk
  refine ⟨by simp [save_to_csv, hne], ?_, ?_, ?_, by simp [save_to_csv]⟩
  · rw [toCsvLines, hcols]
    rfl
  · simp [toCsvLines]
  · intro file2
    simp [save_to_csv, hne]

/-- Witness for C7: one all-sentinel record over a pre-existing file. -/
theorem persist_header_and_rows_witness :
    ([naRecord] ≠ ([] : List RecordT)) ∧ (∀ r ∈ [naRecord], recordKeys r = fourKeys) ∧
    (save_to_csv [naRecord] (some ["old"]) = some (toCsvLines [naRecord]) ∧
     toCsvLines [naRecord]
       = "Name,Rating,Address,Phone" :: [naRecord].map (csvRow fourKeys) ∧
     (toCsvLines [naRecord]).length = [naRecord].length + 1 ∧
     (∀ file2 : Option (List String),
        save_to_csv [naRecord] file2 = save_to_csv [naRecord] (some ["old"])) ∧
     save_to_csv [] (some ["old"]) = some ["old"]) :=
  ⟨by decide, by decide,
   persist_header_and_rows [naRecord] (some ["old"]) (by decide) (by decide)⟩

/-- C8: if any step of `initialize_browser` fails, no resource remains held
when the error propagates — the resources acquired before the failing step
are closed, the never-acquired ones stay unset — and the error is re-raised. -/
theorem init_failure_cleans_up (fail : InitFailure) (h : fail ≠ InitFailure.ok) :
    (initialize_browser fail freshState).2.2 = Except.error () ∧
    (initialize_browser fail freshState).1.playwright ≠ Handle.held ∧
    (initialize_browser fail freshState).1.browser ≠ Handle.held ∧
    (initialize_browser fail freshState).1.context ≠ Handle.held ∧
    (initialize_browser fail freshState).1.page ≠ Handle.held ∧
    (fail = InitFailure.atLaunch →
      (initialize_browser fail freshState).1.playwright = Handle.closed) ∧
    (fail = InitFailure.atContext →
      (initialize_browser fail freshState).1.playwright = Handle.closed ∧
      (initialize_browser fail freshState).1.browser = Handle.closed) ∧
    (fail = InitFailure.atPage →
      (initialize_browser fail freshState).1.playwright = Handle.closed ∧
      (initialize_browser fail freshState).1.browser = Handle.closed ∧
      (initialize_browser fail freshState).1.context = Handle.closed) := by
  cases fail
  · exact absurd rfl h
  all_goals exact (by decide)

/-- Witness for C8: the browsing-context creation step fails; playwright and
browser were acquired and are both closed before the error is re-raised. -/
theorem init_failure_cleans_up_witness :
    (InitFailure.atContext ≠ InitFailure.ok) ∧
    ((initialize_browser InitFailure.atContext freshState).2.2 = Except.error () ∧
     (initialize_browser InitFailure.atContext freshState).1.playwright ≠ Handle.held ∧
     (initialize_browser InitFailure.atContext freshState).1.browser ≠ Handle.held ∧
     (initialize_browser InitFailure.atContext freshState).1.context ≠ Handle.held ∧
     (initialize_browser InitFailure.atContext freshState).1.page ≠ Handle.held ∧
     (InitFailure.atContext = InitFailure.atLaunch →
       (initialize_browser InitFailure.atContext freshState).1.playwright = Handle.closed) ∧
     (InitFailure.atContext = InitFailure.atContext →
       (initialize_browser InitFailure.atContext freshState).1.playwright = Handle.closed ∧
       (initialize_browser InitFailure.atContext freshState).1.browser = Handle.closed) ∧
     (InitFailure.atContext = InitFailure.atPage →
       (initialize_browser InitFailure.atContext freshState).1.playwright = Handle.closed ∧
       (initialize_browser InitFailure.atContext freshState).1.browser = Handle.closed ∧
       (initialize_browser InitFailure.atContext freshState).1.context = Handle.closed)) :=
  ⟨by decide, init_failure_cleans_up InitFailure.atContext (by decide)⟩

/-- Witness for C10: default "missing" on a block with no matching element. -/
theorem safe_extract_default_vs_exception_witness :
    ("missing" ≠ "N/A") ∧
    ((naSoup "h3" = SelectResult.notFound → safe_extract naSoup "h3" "missing" = "missing") ∧
     (naSoup "h3" = SelectResult.raises → safe_extract naSoup "h3" "missing" = "N/A") ∧
     (∀ t, naSoup "h3" = SelectResult.found t → safe_extract naSoup "h3" "missing" = t) ∧
     (naSoup "h3" = SelectResult.notFound → safe_extract naSoup "h3" "missing" ≠ "N/A")) :=
  ⟨by decide, safe_extract_default_vs_exception naSoup "h3" "missing" (by decide)⟩

/-- C9 (amended): teardown performs releases in the reverse-acquisition
order page, context, browser, playwright, skipping any attribute still
unset; calling it on a session holding zero resources performs no release
action, changes nothing, and raises nothing.  But a release does not clear
the attribute, so teardown is not action-idempotent: after a completed
teardown, a second call re-executes the close calls on the still-set
attributes instead of performing no action. -/
theorem teardown_order_and_skips (s : ScrState) :
    List.Sublist (cleanup_resources s).2 fullCloseSeq ∧
    (s.page = Handle.noneH → CloseAction.closePage ∉ (cleanup_resources s).2) ∧
    (s.context = Handle.noneH → CloseAction.closeContext ∉ (cleanup_resources s).2) ∧
    (s.browser = Handle.noneH → CloseAction.closeBrowser ∉ (cleanup_resources s).2) ∧
    (s.playwright = Handle.noneH → CloseAction.stopPlaywright ∉ (cleanup_resources s).2) ∧
    (s.page = Handle.noneH → s.context = Handle.noneH → s.browser = Handle.noneH →
      s.playwright = Handle.noneH → cleanup_resources s = (s, [])) ∧
    (s.page ≠ Handle.noneH → (cleanup_resources (cleanup_resources s).1).2 ≠ []) := by
  refine ⟨?_, ?_, ?_, ?_, ?_, ?_, ?_⟩
  · rw [cleanup_trace_eq_filter]
    exact List.filter_sublist _
  · intro h
    rw [cleanup_trace_eq_filter]
    simp [List.mem_filter, closeGuard, h, Handle.truthy]
  · intro h
    rw [cleanup_trace_eq_filter]
    simp [List.mem_filter, closeGuard, h, Handle.truthy]
  · intro h
    rw [cleanup_trace_eq_filter]
    simp [List.mem_filter, closeGuard, h, Handle.truthy]
  · intro h
    rw [cleanup_trace_eq_filter]
    simp [List.mem_filter, closeGuard, h, Handle.truthy]
  · intro h1 h2 h3 h4
    obtain ⟨pw, br, cx, pg, rs⟩ := s
    dsimp only at h1 h2 h3 h4
    subst h1; subst h2; subst h3; subst h4
    simp [cleanup_resources, Handle.truthy]
  · intro h
    have hp : (cleanup_resources s).1.page = Handle.closed := by
      cases hpg : s.page with
      | noneH => exact absurd hpg h
      | held => simp [cleanup_resources, hpg, Handle.truthy]
      | closed => simp [cleanup_resources, hpg, Handle.truthy]
    have hmem : CloseAction.closePage ∈ (cleanup_resources (cleanup_resources s).1).2 := by
      rw [cleanup_trace_eq_filter]
      refine List.mem_filter.mpr ⟨by simp [fullCloseSeq], ?_⟩
      simp [closeGuard, hp, Handle.truthy]
    exact List.ne_nil_of_mem hmem

/-- Witness for C9's amended theorem: the freshly constructed session holds
nothing, and teardown on it performs no action and changes nothing. -/
theorem teardown_order_and_skips_witness :
    (freshState.page = Handle.noneH ∧ freshState.context = Handle.noneH ∧
     freshState.browser = Handle.noneH ∧ freshState.playwright = Handle.noneH) ∧
    cleanup_resources freshState = (freshState, []) :=
  ⟨⟨rfl, rfl, rfl, rfl⟩,
   (teardown_order_and_skips freshState).2.2.2.2.2.1 rfl rfl rfl rfl⟩

/-- C9 counterexample: on a fully initialized session, the second teardown
after a completed teardown re-executes all four close calls — the claim's
"performs no action" on a second call is false of the code, because
`_cleanup_resources` never resets the attributes to `None`. -/
theorem second_teardown_not_noop_cx :
    (cleanup_resources (cleanup_resources allHeldState).1).2 = fullCloseSeq ∧
    (cleanup_resources (cleanup_resources allHeldState).1).2 ≠ [] := by
  constructor <;> decide

/-- C1 (amended): used as a context manager, the session runs the release
sequence exactly once on every exit path where the retried
page-fetch-and-extract completes without raising (normal completion,
selector-timeout degradation).  But a fatal failure inside
`get_restaurants` runs `_cleanup_resources` once per failed attempt before
re-raising, in addition to the unconditional `__exit__` call, so when all
three attempts fail the release sequence executes four times — not once. -/
theorem scoped_teardown_counts (envs : Nat → PageEnv) :
    ((envs 1).gotoFails = false →
      (withSession InitFailure.ok envs).2.1.count CloseAction.stopPlaywright = 1) ∧
    ((envs 1).gotoFails = true → (envs 2).gotoFails = true → (envs 3).gotoFails = true →
      (withSession InitFailure.ok envs).2.1.count CloseAction.stopPlaywright = 4) := by
  have hW : (withSession InitFailure.ok envs).2.1
      = [] ++ (get_restaurants envs allHeldState).trace
        ++ (cleanup_resources (get_restaurants envs allHeldState).state).2 := rfl
  constructor
  · intro hg
    have hok : (get_restaurants_once (envs 1) allHeldState).2.2 = Except.ok () := by
      rw [once_outcome]
      simp [hg]
    have hres : get_restaurants envs allHeldState
        = ⟨(get_restaurants_once (envs 1) allHeldState).1,
           (get_restaurants_once (envs 1) allHeldState).2.1, [], 1, Except.ok ()⟩ :=
      retryLoop_first_ok envs 1 2 allHeldState hok
    obtain ⟨htr, hpw, _, _, _⟩ := once_no_cleanup (envs 1) allHeldState hg
    have hsp := (cleanup_sp ((get_restaurants_once (envs 1) allHeldState).1)
      (by rw [hpw]; simp [allHeldState])).1
    rw [hW, hres]
    dsimp
    rw [htr]
    simp [List.count_append, hsp]
  · intro h1 h2 h3
    have hf : ∀ k, 1 ≤ k → k < 1 + 3 → (envs k).gotoFails = true := by
      intro k hk1 hk2
      interval_cases k <;> assumption
    obtain ⟨hc, hp⟩ := retryLoop_all_fail_sp_count envs 3 1 allHeldState
      (by omega) (by simp [allHeldState]) hf
    have hc2 : (get_restaurants envs allHeldState).trace.count CloseAction.stopPlaywright
        = 3 := hc
    have hp2 : (get_restaurants envs allHeldState).state.playwright ≠ Handle.noneH := hp
    have hsp := (cleanup_sp ((get_restaurants envs allHeldState).state) hp2).1
    rw [hW]
    simp [List.count_append, hc2, hsp]

/-- Witness for C1's amended theorem: a run whose single successful attempt
leads to exactly one execution of the release sequence, at scope exit. -/
theorem scoped_teardown_counts_witness :
    (okEnvs 1).gotoFails = false ∧
    (withSession InitFailure.ok okEnvs).2.1.count CloseAction.stopPlaywright = 1 :=
  ⟨rfl, (scoped_teardown_counts okEnvs).1 rfl⟩

/-- C1 counterexample: with every attempt's navigation failing, the release
sequence executes four times across the scope (three times inside the retried
`get_restaurants`, once in `__exit__`), refuting "teardown runs exactly
once" and in particular "a fatal failure inside the page-fetch-and-extract
operation does not cause the resource-release sequence to execute a second
time when the scope exits". -/
theorem teardown_runs_four_times_cx :
    (withSession InitFailure.ok failEnvs).2.1.count CloseAction.stopPlaywright = 4 ∧
    (withSession InitFailure.ok failEnvs).2.1.count CloseAction.stopPlaywright ≠ 1 := by
  constructor <;> decide

end Scraper
